import Mathlib

/-!
Verification of the message-streaming relay of the clone-gpt repository.

The definitions below are a shallow embedding of the TypeScript route
handlers and client hook:
- `parseJson`, `deltaContent`, `lineStep`, `readStep`, `decodeReads` embed the
  upstream byte-decoding loop of `POST /api/chats/[chatId]/stream`;
- `deriveTitle`, `wordChunks`, `runSimulateExchange`, `simulatePost` embed
  `POST /api/chats/[chatId]/simulate-stream`;
- `runStreamExchange`, `streamPost` embed `POST /api/chats/[chatId]/stream`;
- `getChatById`, `deleteChatById` embed `GET`/`DELETE /api/chats/[chatId]`.

Network calls and database writes are made explicit: the upstream provider
outcome is an input (`SimUpstream` / `StreamUpstream`), and the Mongo
collection is a `List Chat` threaded through each handler.
-/

set_option maxRecDepth 8192

namespace CloneGpt

/-- Message roles: the schema admits exactly `user` and `assistant`. -/
inductive Role where
  | user
  | assistant
deriving DecidableEq

/-- A processed file attachment; only the fields the routes read are kept
(`name`, `mimeType`, `textContent` from the `ProcessedFile` interface). -/
structure ProcessedFile where
  name : String
  mimeType : String
  textContent : Option String
deriving DecidableEq

/-- A chat message as persisted (role, content, timestamp, optional files). -/
structure Message where
  role : Role
  content : String
  timestamp : Nat
  files : Option (List ProcessedFile)
deriving DecidableEq

/-- A chat document: `_id`, `userId` (owner), `title`, `messages`. -/
structure Chat where
  id : String
  userId : String
  title : String
  messages : List Message
deriving DecidableEq

/-! ## JavaScript string primitives

The handlers use `trim`, `split`, `startsWith`, `slice`, `substring`,
`length` and `join` on JavaScript strings.  They are embedded here as
structurally recursive functions on the character list of a `String`
(the sources only ever apply them to ASCII data, where JS UTF-16 units and
characters coincide). -/

/-- JavaScript `trim` whitespace (the characters occurring in practice). -/
def isJsWs (c : Char) : Bool :=
  c = ' ' || c = '\t' || c = '\n' || c = '\r' || c = '\x0b' || c = '\x0c'

/-- `s.trim()`. -/
def jsTrim (s : String) : String :=
  String.mk (((s.data.dropWhile isJsWs).reverse.dropWhile isJsWs).reverse)

/-- Split on a single separator character, keeping empty pieces, as JS
`split` with a one-character separator does. -/
def splitChars (sep : Char) : List Char → List (List Char)
  | [] => [[]]
  | c :: rest =>
    match splitChars sep rest with
    | [] => [[]]
    | g :: gs => if c = sep then [] :: g :: gs else (c :: g) :: gs

/-- `s.split(sep)` for a one-character separator. -/
def jsSplit (sep : Char) (s : String) : List String :=
  (splitChars sep s.data).map String.mk

/-- Split at every character satisfying a predicate (used only by the
spec-side reading of "whitespace-separated words"). -/
def splitPred (p : Char → Bool) : List Char → List (List Char)
  | [] => [[]]
  | c :: rest =>
    match splitPred p rest with
    | [] => [[]]
    | g :: gs => if p c then [] :: g :: gs else (c :: g) :: gs

def listStartsWith : List Char → List Char → Bool
  | [], _ => true
  | _ :: _, [] => false
  | p :: ps, c :: cs => p = c && listStartsWith ps cs

/-- `s.startsWith(pre)`. -/
def jsStartsWith (pre s : String) : Bool :=
  listStartsWith pre.data s.data

/-- `s.slice(n)` for a non-negative index. -/
def jsDrop (n : Nat) (s : String) : String :=
  String.mk (s.data.drop n)

/-- `s.substring(0, n)`. -/
def jsTake (n : Nat) (s : String) : String :=
  String.mk (s.data.take n)

/-- `s.length` (ASCII data: UTF-16 units = characters). -/
def jsLen (s : String) : Nat :=
  s.data.length

/-- `parts.join(sep)`. -/
def joinWith (sep : String) : List String → String
  | [] => ""
  | [x] => x
  | x :: xs => x ++ sep ++ joinWith sep xs

/-! ## JSON values and `JSON.parse`

The decode loop calls `JSON.parse` on each data payload and optional-chains
into `parsed.choices?.[0]?.delta?.content`.  We embed a strict JSON parser
(fuelled recursive descent) so malformed payloads fail exactly as
`JSON.parse` throws. -/

inductive Json where
  | null
  | bool (b : Bool)
  | num (lit : String)
  | str (s : String)
  | arr (elems : List Json)
  | obj (fields : List (String × Json))

/-- JSON whitespace. -/
def isJsonWs (c : Char) : Bool :=
  c = ' ' || c = '\t' || c = '\n' || c = '\r'

def skipWs (cs : List Char) : List Char :=
  cs.dropWhile isJsonWs

/-- Consume an expected literal character sequence. -/
def expectChars : List Char → List Char → Option (List Char)
  | [], cs => some cs
  | _ :: _, [] => none
  | e :: es, c :: cs => if c = e then expectChars es cs else none

def hexVal (c : Char) : Option Nat :=
  if '0' ≤ c ∧ c ≤ '9' then some (c.toNat - '0'.toNat)
  else if 'a' ≤ c ∧ c ≤ 'f' then some (c.toNat - 'a'.toNat + 10)
  else if 'A' ≤ c ∧ c ≤ 'F' then some (c.toNat - 'A'.toNat + 10)
  else none

/-- Parse a JSON string body (after the opening quote), handling escapes. -/
def parseStrBody : Nat → List Char → List Char → Option (String × List Char)
  | 0, _, _ => none
  | _ + 1, _, [] => none
  | fuel + 1, acc, c :: cs =>
    if c = '"' then some (String.mk acc.reverse, cs)
    else if c = '\\' then
      match cs with
      | [] => none
      | e :: cs2 =>
        if e = '"' then parseStrBody fuel ('"' :: acc) cs2
        else if e = '\\' then parseStrBody fuel ('\\' :: acc) cs2
        else if e = '/' then parseStrBody fuel ('/' :: acc) cs2
        else if e = 'b' then parseStrBody fuel ('\x08' :: acc) cs2
        else if e = 'f' then parseStrBody fuel ('\x0c' :: acc) cs2
        else if e = 'n' then parseStrBody fuel ('\n' :: acc) cs2
        else if e = 'r' then parseStrBody fuel ('\r' :: acc) cs2
        else if e = 't' then parseStrBody fuel ('\t' :: acc) cs2
        else if e = 'u' then
          match cs2 with
          | h1 :: h2 :: h3 :: h4 :: cs3 =>
            match hexVal h1, hexVal h2, hexVal h3, hexVal h4 with
            | some a, some b, some c', some d =>
              parseStrBody fuel (Char.ofNat (((a * 16 + b) * 16 + c') * 16 + d) :: acc) cs3
            | _, _, _, _ => none
          | _ => none
        else none
    else parseStrBody fuel (c :: acc) cs

def parseDigits (cs : List Char) : List Char × List Char :=
  cs.span Char.isDigit

/-- Parse an optional exponent part of a JSON number. -/
def parseExpPart (pre : List Char) (cs : List Char) : Option (String × List Char) :=
  match cs with
  | [] => some (String.mk pre, [])
  | e :: rest =>
    if e = 'e' ∨ e = 'E' then
      let sr : List Char × List Char :=
        match rest with
        | s :: r2 => if s = '+' ∨ s = '-' then ([s], r2) else ([], rest)
        | [] => ([], rest)
      match parseDigits sr.2 with
      | ([], _) => none
      | (ds, rest3) => some (String.mk (pre ++ e :: sr.1 ++ ds), rest3)
    else some (String.mk pre, cs)

/-- Parse the optional fraction then exponent of a JSON number. -/
def parseNumTail (pre : List Char) (cs : List Char) : Option (String × List Char) :=
  match cs with
  | '.' :: rest =>
    match parseDigits rest with
    | ([], _) => none
    | (ds, rest2) => parseExpPart (pre ++ '.' :: ds) rest2
  | _ => parseExpPart pre cs

/-- Parse the integer part of a JSON number (strict: no leading zeros). -/
def parseNumCore (neg : List Char) (cs : List Char) : Option (String × List Char) :=
  match cs with
  | [] => none
  | c :: rest =>
    if c = '0' then parseNumTail (neg ++ ['0']) rest
    else if c.isDigit then
      match parseDigits rest with
      | (ds, rest2) => parseNumTail (neg ++ c :: ds) rest2
    else none

def parseNumber (cs : List Char) : Option (String × List Char) :=
  match cs with
  | '-' :: rest => parseNumCore ['-'] rest
  | _ => parseNumCore [] cs

mutual

/-- Parse one JSON value (fuelled). -/
def parseVal : Nat → List Char → Option (Json × List Char)
  | 0, _ => none
  | fuel + 1, cs =>
    match skipWs cs with
    | [] => none
    | c :: rest =>
      if c = 'n' then (expectChars ['u', 'l', 'l'] rest).map (fun r => (Json.null, r))
      else if c = 't' then (expectChars ['r', 'u', 'e'] rest).map (fun r => (Json.bool true, r))
      else if c = 'f' then (expectChars ['a', 'l', 's', 'e'] rest).map (fun r => (Json.bool false, r))
      else if c = '"' then (parseStrBody (rest.length + 1) [] rest).map (fun p => (Json.str p.1, p.2))
      else if c = '[' then
        match skipWs rest with
        | ']' :: r2 => some (Json.arr [], r2)
        | _ => parseElems fuel rest []
      else if c = '\x7b' then
        match skipWs rest with
        | '\x7d' :: r2 => some (Json.obj [], r2)
        | _ => parseFields fuel rest []
      else (parseNumber (c :: rest)).map (fun p => (Json.num p.1, p.2))

/-- Parse array elements after `[`. -/
def parseElems : Nat → List Char → List Json → Option (Json × List Char)
  | 0, _, _ => none
  | fuel + 1, cs, acc =>
    match parseVal fuel cs with
    | none => none
    | some (v, rest) =>
      match skipWs rest with
      | ',' :: r2 => parseElems fuel r2 (v :: acc)
      | ']' :: r2 => some (Json.arr (v :: acc).reverse, r2)
      | _ => none

/-- Parse object fields after an opening brace. -/
def parseFields : Nat → List Char → List (String × Json) → Option (Json × List Char)
  | 0, _, _ => none
  | fuel + 1, cs, acc =>
    match skipWs cs with
    | '"' :: r1 =>
      match parseStrBody (r1.length + 1) [] r1 with
      | none => none
      | some (k, r2) =>
        match skipWs r2 with
        | ':' :: r3 =>
          match parseVal fuel r3 with
          | none => none
          | some (v, r4) =>
            match skipWs r4 with
            | ',' :: r5 => parseFields fuel r5 ((k, v) :: acc)
            | '\x7d' :: r5 => some (Json.obj ((k, v) :: acc).reverse, r5)
            | _ => none
        | _ => none
    | _ => none

end

/-- `JSON.parse`: whole-input strict parse. -/
def parseJson (s : String) : Option Json :=
  match parseVal (2 * s.data.length + 2) s.data with
  | some (j, rest) => if skipWs rest = [] then some j else none
  | none => none

/-- Object field lookup; like `JSON.parse`, a duplicated key keeps the last
occurrence.  Non-objects have no fields (optional chaining yields undefined). -/
def jsonField (j : Json) (key : String) : Option Json :=
  match j with
  | Json.obj fields => fields.foldl (fun r p => if p.1 = key then some p.2 else r) none
  | _ => none

/-- `parsed.choices?.[0]?.delta?.content` — the extracted increment.  The
upstream protocol only ever places a string here; a non-string field does not
occur and is treated as absent. -/
def deltaContent (j : Json) : Option String :=
  match jsonField j "choices" with
  | some (Json.arr (c0 :: _)) =>
    match jsonField c0 "delta" with
    | some d =>
      match jsonField d "content" with
      | some (Json.str s) => some s
      | _ => none
    | none => none
  | _ => none

/-! ## The chunk-decode loop of `POST /api/chats/[chatId]/stream`

Each read is decoded to text and split on `'\n'`; a line starting with
`"data: "` has its payload trimmed; `"[DONE]"` and empty payloads are
skipped (`continue`); other payloads are `JSON.parse`d, parse failures are
skipped, and a truthy `choices?.[0]?.delta?.content` is appended to the
accumulated increments.  There is no carry-over buffer between reads. -/

/-- Process one line of one read (`for (const line of lines)` body). -/
def lineStep (acc : List String) (line : String) : List String :=
  if jsStartsWith "data: " line then
    let data := jsTrim (jsDrop 6 line)
    if data = "[DONE]" then acc
    else if data = "" then acc
    else
      match parseJson data with
      | some parsed =>
        match deltaContent parsed with
        | some content => if content = "" then acc else acc ++ [content]
        | none => acc
      | none => acc
  else acc

/-- Process one read: `chunk.split('\n')` then the per-line loop. -/
def readStep (acc : List String) (readText : String) : List String :=
  (jsSplit '\n' readText).foldl lineStep acc

/-- The full decode loop over the sequence of reads, in arrival order. -/
def decodeReads (reads : List String) : List String :=
  reads.foldl readStep []

/-! ## The relay routes

`Event` is the wire shape of the emitted event-stream records.  The upstream
provider is abstracted to its observable outcome: `SimUpstream` for the
non-streaming call of `simulate-stream` (the parsed
`choices?.[0]?.message?.content`, or failure covering a non-success status,
network error or unparsable body — all of which throw into the catch branch),
and `StreamUpstream` for the streaming call of `stream` (the sequence of
reads delivered by the body reader, or failure). -/

inductive Event where
  | userMessage (message : Message)
  | chunk (content : String)
  | complete (assistantMessage : Message) (chatTitle : String)
  | error (message : Message) (err : String)
deriving DecidableEq

inductive SimUpstream where
  | failure
  | ok (content : Option String)
deriving DecidableEq

inductive StreamUpstream where
  | failure
  | ok (reads : List String)
deriving DecidableEq

/-- Result of a route invocation: the HTTP outcome. -/
inductive PostResult where
  | unauthorized
  | badRequest
  | notFound
  | eventStream (events : List Event)
deriving DecidableEq

/-- The HTTP status of each outcome; a started event stream is a 200 response. -/
def httpStatus : PostResult → Nat
  | PostResult.unauthorized => 401
  | PostResult.badRequest => 400
  | PostResult.notFound => 404
  | PostResult.eventStream _ => 200

/-- `Chat.findOne(\x7b _id: chatId, userId \x7d)`: first document matching both
the id and the owner. -/
def findOne (store : List Chat) (chatId userId : String) : Option Chat :=
  store.find? (fun c => c.id == chatId && c.userId == userId)

/-- `chat.save()`: whole-document write of the updated chat. -/
def saveChat (store : List Chat) (chat : Chat) : List Chat :=
  store.map (fun c => if c.id == chat.id then chat else c)

/-- The fixed assistant error text of the catch branches. -/
def errorText : String :=
  "Sorry, I encountered an error while processing your message. Please try again."

/-- The error classification string carried by the `error` event. -/
def errorClassText : String := "AI service temporarily unavailable"

/-- The fallback used when the provider body carries no content. -/
def noResponseText : String := "Sorry, I could not generate a response."

/-- The fixed fallback notice emitted when the stream yields no increments. -/
def streamFallbackText : String :=
  "I received your message but there was an issue with the streaming response. Please try again."

/-- The title derivation: `message.trim().split(' ').slice(0, 6).join(' ')`,
truncated to `substring(0, 47) + '...'` when longer than 50 characters. -/
def deriveTitle (message : String) : String :=
  let firstWords := joinWith " " ((jsSplit ' ' (jsTrim message)).take 6)
  if 50 < jsLen firstWords then jsTake 47 firstWords ++ "..." else firstWords

/-- The simulated-streaming chunking: `fullResponse.split(' ')`, each word
emitted with a trailing space except the last. -/
def wordChunks (fullResponse : String) : List String :=
  let words := jsSplit ' ' fullResponse
  words.enum.map (fun p => if p.1 < words.length - 1 then p.2 ++ " " else p.2)

/-- The body of `POST /api/chats/[chatId]/simulate-stream` after validation
and lookup: push the user message, then run the `ReadableStream`, returning
the emitted events and the chat as saved. -/
def runSimulateExchange (chat : Chat) (message : String)
    (files : Option (List ProcessedFile)) (upstream : SimUpstream) (now : Nat) :
    List Event × Chat :=
  let userMessage : Message := ⟨Role.user, jsTrim message, now, files⟩
  let chat1 : Chat := { chat with messages := chat.messages ++ [userMessage] }
  match upstream with
  | SimUpstream.failure =>
    let errorMessage : Message := ⟨Role.assistant, errorText, now, none⟩
    let chat2 : Chat := { chat1 with messages := chat1.messages ++ [errorMessage] }
    ([Event.userMessage userMessage, Event.error errorMessage errorClassText], chat2)
  | SimUpstream.ok content =>
    let fullResponse : String :=
      match content with
      | some c => if c = "" then noResponseText else c
      | none => noResponseText
    let assistantMessage : Message := ⟨Role.assistant, fullResponse, now, none⟩
    let chat2 : Chat := { chat1 with messages := chat1.messages ++ [assistantMessage] }
    let chat3 : Chat :=
      if chat2.messages.length = 2 then { chat2 with title := deriveTitle message } else chat2
    (Event.userMessage userMessage ::
      (wordChunks fullResponse).map Event.chunk ++
      [Event.complete assistantMessage chat3.title],
     chat3)

/-- `POST /api/chats/[chatId]/simulate-stream`: auth, body validation
(`!message?.trim()` — the `files` field is not consulted), owned lookup,
then the exchange.  Returns the HTTP outcome and the updated store. -/
def simulatePost (store : List Chat) (auth : Option String) (chatId message : String)
    (files : Option (List ProcessedFile)) (upstream : SimUpstream) (now : Nat) :
    PostResult × List Chat :=
  match auth with
  | none => (PostResult.unauthorized, store)
  | some userId =>
    if jsTrim message = "" then (PostResult.badRequest, store)
    else
      match findOne store chatId userId with
      | none => (PostResult.notFound, store)
      | some chat =>
        let r := runSimulateExchange chat message files upstream now
        (PostResult.eventStream r.1, saveChat store r.2)

/-- The body of `POST /api/chats/[chatId]/stream` after validation and
lookup: push the user message, decode the upstream reads into increments,
fall back to the fixed notice on an empty accumulator, then commit. -/
def runStreamExchange (chat : Chat) (message : String)
    (upstream : StreamUpstream) (now : Nat) : List Event × Chat :=
  let userMessage : Message := ⟨Role.user, jsTrim message, now, none⟩
  let chat1 : Chat := { chat with messages := chat.messages ++ [userMessage] }
  match upstream with
  | StreamUpstream.failure =>
    let errorMessage : Message := ⟨Role.assistant, errorText, now, none⟩
    let chat2 : Chat := { chat1 with messages := chat1.messages ++ [errorMessage] }
    ([Event.userMessage userMessage, Event.error errorMessage errorClassText], chat2)
  | StreamUpstream.ok reads =>
    let increments := decodeReads reads
    let accumulated := String.join increments
    let chunks := if accumulated = "" then [streamFallbackText] else increments
    let fullResponse := if accumulated = "" then streamFallbackText else accumulated
    let assistantMessage : Message :=
      ⟨Role.assistant, if fullResponse = "" then noResponseText else fullResponse, now, none⟩
    let chat2 : Chat := { chat1 with messages := chat1.messages ++ [assistantMessage] }
    let chat3 : Chat :=
      if chat2.messages.length = 2 then { chat2 with title := deriveTitle message } else chat2
    (Event.userMessage userMessage ::
      chunks.map Event.chunk ++
      [Event.complete assistantMessage chat3.title],
     chat3)

/-- `POST /api/chats/[chatId]/stream`: auth, body validation, owned lookup,
then the streaming exchange. -/
def streamPost (store : List Chat) (auth : Option String) (chatId message : String)
    (upstream : StreamUpstream) (now : Nat) : PostResult × List Chat :=
  match auth with
  | none => (PostResult.unauthorized, store)
  | some userId =>
    if jsTrim message = "" then (PostResult.badRequest, store)
    else
      match findOne store chatId userId with
      | none => (PostResult.notFound, store)
      | some chat =>
        let r := runStreamExchange chat message upstream now
        (PostResult.eventStream r.1, saveChat store r.2)

/-- Result of `GET /api/chats/[chatId]`. -/
inductive FetchResult where
  | unauthorized
  | notFound
  | ok (chat : Chat)
deriving DecidableEq

/-- `GET /api/chats/[chatId]`: owned lookup, 404 when no document matches
both id and owner. -/
def getChatById (store : List Chat) (auth : Option String) (chatId : String) : FetchResult :=
  match auth with
  | none => FetchResult.unauthorized
  | some userId =>
    match findOne store chatId userId with
    | none => FetchResult.notFound
    | some chat => FetchResult.ok chat

/-- Result of `DELETE /api/chats/[chatId]`. -/
inductive DeleteResult where
  | unauthorized
  | notFound
  | deleted
deriving DecidableEq

/-- `DELETE /api/chats/[chatId]`: `findOneAndDelete(\x7b _id, userId \x7d)` —
removes the first document matching both id and owner, 404 otherwise. -/
def deleteChatById (store : List Chat) (auth : Option String) (chatId : String) :
    DeleteResult × List Chat :=
  match auth with
  | none => (DeleteResult.unauthorized, store)
  | some userId =>
    match findOne store chatId userId with
    | none => (DeleteResult.notFound, store)
    | some _ =>
      (DeleteResult.deleted, store.eraseP (fun c => c.id == chatId && c.userId == userId))

/-- Modelled from the spec: the spec-side reading of the title rule — "the
first six whitespace-separated words of the user's first message" — used only
to compare against the source-derived `deriveTitle`. -/
def specFirstSixWords (message : String) : String :=
  joinWith " "
    ((((splitPred isJsWs message.data).filter (fun w => w ≠ [])).map String.mk).take 6)

/-- Event classifiers for the protocol claims. -/
def isUserEv : Event → Bool
  | Event.userMessage _ => true
  | _ => false

def isChunkEv : Event → Bool
  | Event.chunk _ => true
  | _ => false

def isCompleteEv : Event → Bool
  | Event.complete _ _ => true
  | _ => false

def isErrorEv : Event → Bool
  | Event.error _ _ => true
  | _ => false

/-- A terminal event is `complete` or `error`. -/
def isTerminalEv (e : Event) : Bool := isCompleteEv e || isErrorEv e

/-- The event protocol of one exchange: one leading `userMessage`, then only
`chunk` events, then exactly one terminal event, `complete` xor `error`. -/
def protocolShape (evs : List Event) : Prop :=
  ∃ (u : Message) (cs : List String) (t : Event),
    evs = Event.userMessage u :: cs.map Event.chunk ++ [t]
    ∧ isTerminalEv t = true
    ∧ (isCompleteEv t = true ∨ isErrorEv t = true)
    ∧ ¬(isCompleteEv t = true ∧ isErrorEv t = true)
    ∧ evs.countP isUserEv = 1
    ∧ evs.countP isTerminalEv = 1

/-- A fresh empty conversation used as a concrete fixture. -/
def chatEx : Chat := ⟨"c1", "u1", "New Chat", []⟩

/-- A conversation ending in one completed exchange, the starting point of the
regeneration scenario. -/
def regenChat : Chat :=
  ⟨"c1", "u1", "2+2?", [⟨Role.user, "2+2?", 0, none⟩, ⟨Role.assistant, "4", 1, none⟩]⟩

/-- The sentinel-terminated upstream byte sequence of the decode claims. -/
def hiFrameBytes : String :=
  "data: \x7b\"choices\":[\x7b\"delta\":\x7b\"content\":\"Hi\"\x7d\x7d]\x7d\n\ndata: [DONE]\n\n"

/-- Claim C2: decoding the sentinel-terminated sequence in one read yields
exactly the increment "Hi", but the same bytes split byte-by-byte across
reads yield no increment at all: the decoder keeps no partial-line buffer
(`chunk.split('\n')` is applied per read), so its output is not invariant
under re-chunking, contradicting the claim for the byte-by-byte partition. -/
theorem c2_decoder_rechunking_sensitivity :
    decodeReads [hiFrameBytes] = ["Hi"]
    ∧ decodeReads (hiFrameBytes.data.map (fun c => String.mk [c])) = [] :=
  ⟨rfl, rfl⟩

/-- Claim C8 counterexample: a data frame appearing after the `[DONE]`
sentinel still contributes its increment — the sentinel is skipped with
`continue`, it does not terminate the decode — so the claimed increment
sequence would be `[]` but the code produces `["X"]`. -/
theorem c8_post_sentinel_frame_contributes :
    decodeReads
        ["data: [DONE]\n\ndata: \x7b\"choices\":[\x7b\"delta\":\x7b\"content\":\"X\"\x7d\x7d]\x7d\n\n"]
      = ["X"] :=
  rfl

/-- Claim C8 as amended: a `[DONE]` data line yields no increment for the
sentinel itself, and decoding simply continues — a read consisting of the
sentinel record is a no-op in the middle of any read sequence, so frames
after the sentinel contribute exactly as if it were absent. -/
theorem c8_sentinel_skipped_not_terminating (rs1 rs2 : List String) :
    decodeReads (rs1 ++ "data: [DONE]\n\n" :: rs2) = decodeReads (rs1 ++ rs2) := by
  have hsent : ∀ acc : List String, readStep acc "data: [DONE]\n\n" = acc := fun acc => rfl
  unfold decodeReads
  rw [List.foldl_append, List.foldl_append, List.foldl_cons, hsent]

/-- Claim C4: regeneration re-invokes the same POST route, which has no
regenerate mode and unconditionally appends a new user message; starting from
a conversation `[user "2+2?", assistant "4"]`, the committed state after a
regenerate round-trip holds four messages with two assistant replies — a
duplicated exchange, not a single replaced assistant message. -/
theorem c4_regenerate_duplicates_committed :
    ((runSimulateExchange regenChat "2+2?" none (SimUpstream.ok (some "4")) 2).2.messages.map
        Message.role
      = [Role.user, Role.assistant, Role.user, Role.assistant])
    ∧ ((runSimulateExchange regenChat "2+2?" none (SimUpstream.ok (some "4")) 2).2.messages.countP
        (fun m => m.role == Role.assistant) = 2) := by
  constructor
  · rfl
  · rfl

/-! ## Protocol-shape helper lemmas -/

lemma countP_chunks_user (cs : List String) : (cs.map Event.chunk).countP isUserEv = 0 := by
  induction cs with
  | nil => rfl
  | cons a l ih => simp [List.countP_cons, isUserEv, ih]

lemma countP_chunks_terminal (cs : List String) :
    (cs.map Event.chunk).countP isTerminalEv = 0 := by
  induction cs with
  | nil => rfl
  | cons a l ih => simp [List.countP_cons, isTerminalEv, isCompleteEv, isErrorEv, ih]

lemma protocolShape_complete (u : Message) (cs : List String) (am : Message) (ti : String) :
    protocolShape (Event.userMessage u :: cs.map Event.chunk ++ [Event.complete am ti]) := by
  refine ⟨u, cs, Event.complete am ti, rfl, rfl, Or.inl rfl, ?_, ?_, ?_⟩
  · simp [isCompleteEv, isErrorEv]
  · simp [List.countP_cons, List.countP_append, countP_chunks_user, isUserEv]
  · simp [List.countP_cons, List.countP_append, countP_chunks_terminal, isTerminalEv,
      isCompleteEv, isErrorEv]

lemma protocolShape_error (u : Message) (cs : List String) (em : Message) (err : String) :
    protocolShape (Event.userMessage u :: cs.map Event.chunk ++ [Event.error em err]) := by
  refine ⟨u, cs, Event.error em err, rfl, rfl, Or.inr rfl, ?_, ?_, ?_⟩
  · simp [isCompleteEv, isErrorEv]
  · simp [List.countP_cons, List.countP_append, countP_chunks_user, isUserEv]
  · simp [List.countP_cons, List.countP_append, countP_chunks_terminal, isTerminalEv,
      isCompleteEv, isErrorEv]

lemma runSimulateExchange_protocol (chat : Chat) (message : String)
    (files : Option (List ProcessedFile)) (upstream : SimUpstream) (now : Nat) :
    protocolShape (runSimulateExchange chat message files upstream now).1 := by
  cases upstream with
  | failure => exact protocolShape_error _ [] _ _
  | ok content => exact protocolShape_complete _ (wordChunks _) _ _

lemma runStreamExchange_protocol (chat : Chat) (message : String)
    (upstream : StreamUpstream) (now : Nat) :
    protocolShape (runStreamExchange chat message upstream now).1 := by
  cases upstream with
  | failure => exact protocolShape_error _ [] _ _
  | ok reads => exact protocolShape_complete _ _ _ _

/-- Claim C1: on every valid invocation (authenticated owner, owned chat
found, non-empty trimmed text) both streaming routes answer with a 200
event stream whose events are exactly one leading `userMessage`, then only
`chunk` events, then exactly one terminal event — `complete` xor `error`,
never both, never neither. -/
theorem c1_exchange_event_protocol (store : List Chat) (userId chatId message : String)
    (files : Option (List ProcessedFile)) (chat : Chat)
    (upstream : SimUpstream) (upstream2 : StreamUpstream) (now : Nat)
    (hfind : findOne store chatId userId = some chat) (hmsg : jsTrim message ≠ "") :
    simulatePost store (some userId) chatId message files upstream now
        = (PostResult.eventStream (runSimulateExchange chat message files upstream now).1,
           saveChat store (runSimulateExchange chat message files upstream now).2)
    ∧ protocolShape (runSimulateExchange chat message files upstream now).1
    ∧ streamPost store (some userId) chatId message upstream2 now
        = (PostResult.eventStream (runStreamExchange chat message upstream2 now).1,
           saveChat store (runStreamExchange chat message upstream2 now).2)
    ∧ protocolShape (runStreamExchange chat message upstream2 now).1 := by
  refine ⟨?_, runSimulateExchange_protocol chat message files upstream now, ?_,
    runStreamExchange_protocol chat message upstream2 now⟩
  · simp [simulatePost, hfind, hmsg]
  · simp [streamPost, hfind, hmsg]

/-- C1 witness: the protocol shape at a concrete valid invocation. -/
theorem c1_exchange_event_protocol_witness :
    protocolShape (runSimulateExchange chatEx "hello" none (SimUpstream.ok (some "hi")) 0).1
    ∧ protocolShape (runStreamExchange chatEx "hello" (StreamUpstream.ok [hiFrameBytes]) 0).1 :=
  ⟨(c1_exchange_event_protocol [chatEx] "u1" "c1" "hello" none chatEx
      (SimUpstream.ok (some "hi")) (StreamUpstream.ok [hiFrameBytes]) 0 (by decide)
      (by decide)).2.1,
   (c1_exchange_event_protocol [chatEx] "u1" "c1" "hello" none chatEx
      (SimUpstream.ok (some "hi")) (StreamUpstream.ok [hiFrameBytes]) 0 (by decide)
      (by decide)).2.2.2⟩

/-- Claim C3 counterexample: a request whose text is whitespace-only but
which carries an attachment is rejected with 400 — the validation consults
only `message`, so "empty text but at least one attachment is accepted" is
false — and the store is left unchanged. -/
theorem c3_empty_text_with_attachment_rejected :
    simulatePost [chatEx] (some "u1") "c1" "   "
        (some [⟨"notes.txt", "text/plain", some "hello"⟩]) (SimUpstream.ok (some "ok")) 0
      = (PostResult.badRequest, [chatEx]) := by
  decide

/-- Claim C3 as amended: with an authenticated caller, the route rejects
with 400 exactly when the supplied text is empty or whitespace-only,
regardless of attachments, and any such rejection happens before any state
mutation (the store is returned unchanged). -/
theorem c3_validation_amended (store : List Chat) (userId chatId message : String)
    (files : Option (List ProcessedFile)) (upstream : SimUpstream) (now : Nat) :
    ((simulatePost store (some userId) chatId message files upstream now).1
        = PostResult.badRequest
      ↔ jsTrim message = "")
    ∧ (jsTrim message = "" →
        simulatePost store (some userId) chatId message files upstream now
          = (PostResult.badRequest, store)) := by
  constructor
  · constructor
    · intro h
      by_contra hne
      simp only [simulatePost, if_neg hne] at h
      cases hfo : findOne store chatId userId with
      | none => rw [hfo] at h; simp at h
      | some chat => rw [hfo] at h; simp at h
    · intro h
      simp [simulatePost, h]
  · intro h
    simp [simulatePost, h]

/-- C3 witness: the amended rule at a concrete empty-text request. -/
theorem c3_validation_amended_witness :
    simulatePost [chatEx] (some "u1") "c1" "" none SimUpstream.failure 0
      = (PostResult.badRequest, [chatEx]) :=
  (c3_validation_amended [chatEx] "u1" "c1" "" none SimUpstream.failure 0).2 rfl

/-- Claim C5: once the user message is recorded, an upstream failure (non-ok
status, network error, malformed body — anything thrown inside the stream)
appends and persists the fixed-text assistant error message exactly like a
normal assistant message, emits a single `error` event carrying it together
with the classification string, terminates the stream, and the HTTP response
is still the 200 event stream, never a 5xx. -/
theorem c5_error_path_recovery (store : List Chat) (userId chatId message : String)
    (files : Option (List ProcessedFile)) (chat : Chat) (now : Nat)
    (hfind : findOne store chatId userId = some chat) (hmsg : jsTrim message ≠ "") :
    runSimulateExchange chat message files SimUpstream.failure now
      = ([Event.userMessage ⟨Role.user, jsTrim message, now, files⟩,
          Event.error ⟨Role.assistant, errorText, now, none⟩ errorClassText],
         { chat with messages :=
            (chat.messages ++ [⟨Role.user, jsTrim message, now, files⟩])
              ++ [⟨Role.assistant, errorText, now, none⟩] })
    ∧ runStreamExchange chat message StreamUpstream.failure now
      = ([Event.userMessage ⟨Role.user, jsTrim message, now, none⟩,
          Event.error ⟨Role.assistant, errorText, now, none⟩ errorClassText],
         { chat with messages :=
            (chat.messages ++ [⟨Role.user, jsTrim message, now, none⟩])
              ++ [⟨Role.assistant, errorText, now, none⟩] })
    ∧ httpStatus (simulatePost store (some userId) chatId message files
        SimUpstream.failure now).1 = 200
    ∧ httpStatus (streamPost store (some userId) chatId message
        StreamUpstream.failure now).1 = 200
    ∧ simulatePost store (some userId) chatId message files SimUpstream.failure now
      = (PostResult.eventStream
           (runSimulateExchange chat message files SimUpstream.failure now).1,
         saveChat store (runSimulateExchange chat message files SimUpstream.failure now).2) := by
  refine ⟨rfl, rfl, ?_, ?_, ?_⟩
  · simp [simulatePost, hfind, hmsg, httpStatus]
  · simp [streamPost, hfind, hmsg, httpStatus]
  · simp [simulatePost, hfind, hmsg]

/-- C5 witness: the error path at a concrete valid invocation. -/
theorem c5_error_path_recovery_witness :
    httpStatus (simulatePost [chatEx] (some "u1") "c1" "oops" none SimUpstream.failure 0).1
      = 200 :=
  (c5_error_path_recovery [chatEx] "u1" "c1" "oops" none chatEx 0 (by decide)
    (by decide)).2.2.1

/-! ## Title-derivation helper lemmas -/

lemma length_append_two_ne_two (l : List Message) (a b : Message) (h : l ≠ []) :
    ((l ++ [a]) ++ [b]).length ≠ 2 := by
  have h0 : l.length ≠ 0 := fun hh => h (List.length_eq_zero.mp hh)
  simp only [List.length_append, List.length_singleton]
  omega

lemma runSimulateExchange_ok_title_empty (chat : Chat) (message : String)
    (files : Option (List ProcessedFile)) (content : Option String) (now : Nat)
    (h : chat.messages = []) :
    (runSimulateExchange chat message files (SimUpstream.ok content) now).2.title
      = deriveTitle message := by
  simp [runSimulateExchange, h]

lemma runSimulateExchange_ok_title_nonempty (chat : Chat) (message : String)
    (files : Option (List ProcessedFile)) (content : Option String) (now : Nat)
    (h : chat.messages ≠ []) :
    (runSimulateExchange chat message files (SimUpstream.ok content) now).2.title
      = chat.title := by
  simp only [runSimulateExchange]
  rw [if_neg (length_append_two_ne_two chat.messages _ _ h)]

/-- Claim C6 counterexample: with the first message
`"one  two three four five six seven"` (a double space after the first
word), the first exchange of a fresh conversation sets the title to
`"one  two three four five"` — the join of the first six single-space-split
fields, two of which collapse around an empty field — not to the first six
whitespace-separated words `"one two three four five six"` as claimed. -/
theorem c6_title_not_whitespace_words :
    ((runSimulateExchange chatEx "one  two three four five six seven" none
        (SimUpstream.ok (some "hi")) 0).2.title
      = "one  two three four five")
    ∧ specFirstSixWords "one  two three four five six seven"
      = "one two three four five six"
    ∧ ((runSimulateExchange chatEx "one  two three four five six seven" none
        (SimUpstream.ok (some "hi")) 0).2.title
      ≠ specFirstSixWords "one  two three four five six seven") := by
  refine ⟨rfl, rfl, ?_⟩
  decide

/-- Claim C6 as amended: a successful exchange overwrites the title only
when it brings the conversation to exactly its second total message, and the
title becomes `message.trim()` split on single spaces (consecutive spaces
yield empty fields that count toward the six), first six fields joined by
single spaces, truncated to the first 47 characters plus an ellipsis marker
when that prefix exceeds 50 characters; the claim's example still yields
`"Can you help me understand recursion"`. -/
theorem c6_title_derivation_amended (chat : Chat) (message : String)
    (files : Option (List ProcessedFile)) (content : Option String) (now : Nat) :
    (chat.messages = [] →
      (runSimulateExchange chat message files (SimUpstream.ok content) now).2.title
        = deriveTitle message)
    ∧ (chat.messages ≠ [] →
      (runSimulateExchange chat message files (SimUpstream.ok content) now).2.title
        = chat.title)
    ∧ deriveTitle "Can you help me understand recursion please"
        = "Can you help me understand recursion"
    ∧ deriveTitle "aaaaaaaaaa bbbbbbbbbb cccccccccc dddddddddd eeeeeeeeee ffffffffff"
        = "aaaaaaaaaa bbbbbbbbbb cccccccccc dddddddddd eee..." :=
  ⟨runSimulateExchange_ok_title_empty chat message files content now,
   runSimulateExchange_ok_title_nonempty chat message files content now,
   rfl, rfl⟩

/-- C6 witness: the amended derivation at the claim's concrete example. -/
theorem c6_title_derivation_amended_witness :
    (runSimulateExchange chatEx "Can you help me understand recursion please" none
        (SimUpstream.ok (some "Sure")) 0).2.title
      = deriveTitle "Can you help me understand recursion please" :=
  (c6_title_derivation_amended chatEx "Can you help me understand recursion please" none
    (some "Sure") 0).1 rfl

lemma chatIf_messages (P : Prop) [Decidable P] (i u t1 t2 : String) (ms : List Message) :
    (if P then Chat.mk i u t1 ms else Chat.mk i u t2 ms).messages = ms := by
  split <;> rfl

/-- Claim C7: when the decoded upstream stream yields zero increments, the
fixed fallback notice is emitted as the sole `chunk` event and the committed
assistant message's content is exactly that non-empty fallback notice. -/
theorem c7_empty_stream_fallback (chat : Chat) (message : String) (reads : List String)
    (now : Nat) (hdec : decodeReads reads = []) :
    ((runStreamExchange chat message (StreamUpstream.ok reads) now).1
      = [Event.userMessage ⟨Role.user, jsTrim message, now, none⟩,
         Event.chunk streamFallbackText,
         Event.complete ⟨Role.assistant, streamFallbackText, now, none⟩
           (runStreamExchange chat message (StreamUpstream.ok reads) now).2.title])
    ∧ ((runStreamExchange chat message (StreamUpstream.ok reads) now).2.messages
      = (chat.messages ++ [⟨Role.user, jsTrim message, now, none⟩])
          ++ [⟨Role.assistant, streamFallbackText, now, none⟩])
    ∧ streamFallbackText ≠ "" := by
  refine ⟨?_, ?_, by decide⟩
  · simp only [runStreamExchange]
    rw [hdec]
    rfl
  · simp only [runStreamExchange]
    rw [hdec, chatIf_messages]
    rfl

/-- C7 witness: the fallback at a concrete exchange whose upstream delivered
no reads at all. -/
theorem c7_empty_stream_fallback_witness :
    (runStreamExchange chatEx "hi" (StreamUpstream.ok []) 0).2.messages
      = (chatEx.messages ++ [⟨Role.user, jsTrim "hi", 0, none⟩])
          ++ [⟨Role.assistant, streamFallbackText, 0, none⟩] :=
  (c7_empty_stream_fallback chatEx "hi" [] 0 rfl).2.1

/-- Claim C9: when every stored chat carrying the requested id belongs to a
different owner, both the owned lookup and the owned delete answer
not-found (and deletion leaves the store untouched); conversely a chat is
only ever returned when both its id and its owner match the request. -/
theorem c9_ownership_isolation (store : List Chat) (owner chatId : String)
    (_hex : ∃ c ∈ store, c.id = chatId)
    (hne : ∀ c ∈ store, c.id = chatId → c.userId ≠ owner) :
    getChatById store (some owner) chatId = FetchResult.notFound
    ∧ deleteChatById store (some owner) chatId = (DeleteResult.notFound, store)
    ∧ (∀ (store2 : List Chat) (c : Chat),
        getChatById store2 (some owner) chatId = FetchResult.ok c →
        c.id = chatId ∧ c.userId = owner) := by
  have hfo : findOne store chatId owner = none := by
    apply List.find?_eq_none.mpr
    intro c hc
    simp only [Bool.and_eq_true, beq_iff_eq, not_and]
    intro h1 h2
    exact hne c hc h1 h2
  refine ⟨?_, ?_, ?_⟩
  · simp [getChatById, hfo]
  · simp [deleteChatById, hfo]
  · intro store2 c h
    simp only [getChatById] at h
    cases hfo2 : findOne store2 chatId owner with
    | none => rw [hfo2] at h; simp at h
    | some c' =>
      rw [hfo2] at h
      simp only [FetchResult.ok.injEq] at h
      subst h
      have hp := List.find?_some hfo2
      simpa [Bool.and_eq_true, beq_iff_eq] using hp

/-- C9 witness: a chat that exists under owner "alice" is invisible to
"bob" despite the correct id. -/
theorem c9_ownership_isolation_witness :
    getChatById [Chat.mk "c1" "alice" "t" []] (some "bob") "c1" = FetchResult.notFound :=
  (c9_ownership_isolation [Chat.mk "c1" "alice" "t" []] "bob" "c1"
    ⟨Chat.mk "c1" "alice" "t" [], by simp, rfl⟩ (by decide)).1

/-- Claim C10: the error path never touches the title — an error-terminated
first exchange persists the conversation with two messages and its
creation-time title — and any exchange starting from a non-empty message
list (in particular every later exchange of that conversation) also leaves
the title unchanged, so the title is never derived afterwards. -/
theorem c10_error_path_title_frame (chat : Chat) (message : String)
    (files : Option (List ProcessedFile)) (now : Nat) :
    ((runSimulateExchange chat message files SimUpstream.failure now).2.title = chat.title)
    ∧ (chat.messages = [] →
        (runSimulateExchange chat message files SimUpstream.failure now).2.messages.length
          = 2)
    ∧ (∀ upstream, chat.messages ≠ [] →
        (runSimulateExchange chat message files upstream now).2.title = chat.title) := by
  refine ⟨rfl, ?_, ?_⟩
  · intro h
    simp [runSimulateExchange, h]
  · intro upstream h
    cases upstream with
    | failure => rfl
    | ok content => exact runSimulateExchange_ok_title_nonempty chat message files content now h

/-- C10 witness: a failed first exchange commits two messages with the
creation-time title kept. -/
theorem c10_error_path_title_frame_witness :
    (runSimulateExchange chatEx "hi" none SimUpstream.failure 0).2.messages.length = 2
    ∧ (runSimulateExchange chatEx "hi" none SimUpstream.failure 0).2.title = chatEx.title :=
  ⟨(c10_error_path_title_frame chatEx "hi" none 0).2.1 rfl,
   (c10_error_path_title_frame chatEx "hi" none 0).1⟩

end CloneGpt
